import Mathlib

/-
  Verification development for the change-detection engine in
  src/change_detector.py of the LLM-base-Satellite-Change-Detection repository.

  The numpy arrays of the source are embedded shallowly: a 2-D array is a
  pair of dimensions together with a total function giving the (real-valued)
  entry at each index, and likewise for 3-D arrays.  All floating-point
  arithmetic of the source is modelled over the reals.  Functions that can
  raise a Python exception are modelled with Except.
-/

noncomputable section

/-- A 2-D numpy array of floats: dimensions (d0, d1) and entries.  Entries
outside the index range are irrelevant to every definition below, which only
ever reads indices i < d0, j < d1. -/
structure Arr2 where
  d0 : ℕ
  d1 : ℕ
  data : ℕ → ℕ → ℝ

/-- A 3-D numpy array of floats: dimensions (d0, d1, d2) and entries. -/
structure Arr3 where
  d0 : ℕ
  d1 : ℕ
  d2 : ℕ
  data : ℕ → ℕ → ℕ → ℝ

/-- Errors a call into the engine can surface, mirroring the Python
exceptions that the functions of src/change_detector.py can raise. -/
inductive PyErr where
  /-- TypeError, e.g. calling a function with more arguments than it has
  parameters. -/
  | typeError
  /-- ValueError raised by numpy when an elementwise operation meets two
  shapes that cannot be broadcast together. -/
  | broadcastError
  /-- ValueError("Before and after images must have the same shape") from
  save_change_map, line 47. -/
  | shapeMismatch
  /-- ValueError("Unexpected image shape for change map visualization") from
  save_change_map, line 55. -/
  | unsupportedLayout
deriving DecidableEq

/-- The epsilon 1e-10 used at lines 16 and 28 of src/change_detector.py. -/
def eps : ℝ := 1 / 10 ^ 10

/-- Embeds the denominator guard of calculate_ndvi and calculate_ndbi
(lines 15-16 and 27-28): entries of the denominator array that are exactly
zero are replaced by 1e-10; every other entry is left untouched. -/
def pyDenom (d : ℝ) : ℝ := if d = 0 then eps else d

/-- Embeds calculate_ndvi (lines 9-19): elementwise
(nir - red) / denominator, where the denominator is nir + red with exact
zeros replaced by 1e-10.  The two bands have the same shape wherever the
source calls this (two bands of one raster). -/
def calculate_ndvi (nir_band red_band : Arr2) : Arr2 :=
  ⟨nir_band.d0, nir_band.d1, fun i j =>
    (nir_band.data i j - red_band.data i j) /
      pyDenom (nir_band.data i j + red_band.data i j)⟩

/-- Embeds calculate_ndbi (lines 21-31): elementwise
(swir - nir) / denominator, with the same zero-replacement guard. -/
def calculate_ndbi (swir_band nir_band : Arr2) : Arr2 :=
  ⟨swir_band.d0, swir_band.d1, fun i j =>
    (swir_band.data i j - nir_band.data i j) /
      pyDenom (swir_band.data i j + nir_band.data i j)⟩

/-- Modelled from the spec (section 4.2): the vegetation index with the
denominator floored to epsilon, vegetationIndex = (ir - red) / max(ir + red, eps).
Stated for comparison against calculate_ndvi, which is taken from the code. -/
def ndvi_spec (nir_band red_band : Arr2) : Arr2 :=
  ⟨nir_band.d0, nir_band.d1, fun i j =>
    (nir_band.data i j - red_band.data i j) /
      max (nir_band.data i j + red_band.data i j) eps⟩

/-- Modelled from the spec (section 4.2): the built-up index with the
denominator floored to epsilon, builtUpIndex = (sw - ir) / max(sw + ir, eps). -/
def ndbi_spec (swir_band nir_band : Arr2) : Arr2 :=
  ⟨swir_band.d0, swir_band.d1, fun i j =>
    (swir_band.data i j - nir_band.data i j) /
      max (swir_band.data i j + nir_band.data i j) eps⟩

/-- Embeds np.transpose(a, (1, 2, 0)) as used at lines 82-83: the result has
shape (d1, d2, d0) and entry (i, j, k) equal to entry (k, i, j) of the
input. -/
def transpose120 (a : Arr3) : Arr3 :=
  ⟨a.d1, a.d2, a.d0, fun i j k => a.data k i j⟩

/-- Embeds the layout-normalization step of calculate_pixel_change_percentage
(lines 81-83): when the BEFORE array is 3-D with first axis of size at most 5
BOTH arrays are transposed with axes (1, 2, 0); otherwise both are left as
they are.  All arrays of this model are 3-D, so the ndim == 3 test of line 81
always holds. -/
def normalizePair (before_arr after_arr : Arr3) : Arr3 × Arr3 :=
  if before_arr.d0 ≤ 5 then (transpose120 before_arr, transpose120 after_arr)
  else (before_arr, after_arr)

/-- Embeds the numpy broadcasting rule for one axis: two sizes are
compatible when they are equal or one of them is 1, and the broadcast size
is the larger of the two; otherwise the elementwise operation raises a
ValueError. -/
def bcastDim (d e : ℕ) : Option ℕ :=
  if d = e then some d else if d = 1 then some e else if e = 1 then some d else none

/-- Index into an axis of size d under broadcasting: an axis of size 1 is
read at index 0 whatever the requested index. -/
def bIdx (d i : ℕ) : ℕ := if d = 1 then 0 else i

/-- Per-pixel change magnitude of line 89-91: the mean over the (broadcast)
band axis of the absolute difference of the two (already normalized)
arrays. -/
def diffMag (b a : Arr3) (nB : ℕ) : ℕ → ℕ → ℝ := fun i j =>
  (∑ k ∈ Finset.range nB,
      |a.data (bIdx a.d0 i) (bIdx a.d1 j) (bIdx a.d2 k) -
        b.data (bIdx b.d0 i) (bIdx b.d1 j) (bIdx b.d2 k)|) / nB

/-- Mean of a 2-D field over the grid range H × range W, as np.mean. -/
def gridMean (nH nW : ℕ) (f : ℕ → ℕ → ℝ) : ℝ :=
  (∑ i ∈ Finset.range nH, ∑ j ∈ Finset.range nW, f i j) / (nH * nW)

/-- Population standard deviation of a 2-D field over the grid, as np.std:
the square root of the mean squared deviation from the mean. -/
def gridStd (nH nW : ℕ) (f : ℕ → ℕ → ℝ) : ℝ :=
  Real.sqrt (gridMean nH nW (fun i j => (f i j - gridMean nH nW f) ^ 2))

open Classical in
/-- Number of grid positions whose field value strictly exceeds t, as
np.sum(field > t) over a 2-D array. -/
def countGT (nH nW : ℕ) (f : ℕ → ℕ → ℝ) (t : ℝ) : ℕ :=
  ((Finset.range nH ×ˢ Finset.range nW).filter (fun p => t < f p.1 p.2)).card

open Classical in
/-- Number of grid positions whose field value is strictly below t, as
np.sum(field < t). -/
def countLT (nH nW : ℕ) (f : ℕ → ℕ → ℝ) (t : ℝ) : ℕ :=
  ((Finset.range nH ×ˢ Finset.range nW).filter (fun p => f p.1 p.2 < t)).card

/-- Lines 89-96 of calculate_pixel_change_percentage, applied to the two
already-normalized arrays and the broadcast grid sizes: the threshold is
mean + threshold_factor * std of the per-pixel difference magnitude and the
value is the percentage of grid positions strictly above it.  The optional
change-map save of lines 98-99 only writes a file and swallows its own
exceptions (save_change_map catches everything it raises), so it does not
appear in the value model. -/
def pixelPctValue (nb na : Arr3) (nH nW nB : ℕ) (threshold_factor : ℝ) : ℝ :=
  let dm := diffMag nb na nB
  let thr := gridMean nH nW dm + threshold_factor * gridStd nH nW dm
  (countGT nH nW dm thr : ℝ) / (nH * nW) * 100

/-- Embeds calculate_pixel_change_percentage (lines 70-100).  Both arrays
are layout-normalized by the rule of lines 81-83 keyed on the before array;
the elementwise subtraction of line 89 follows numpy broadcasting, raising a
ValueError when a pair of axes is incompatible; on the broadcast shape the
value is pixelPctValue. -/
def calculate_pixel_change_percentage (before_arr after_arr : Arr3)
    (threshold_factor : ℝ) : Except PyErr ℝ :=
  let nb := (normalizePair before_arr after_arr).1
  let na := (normalizePair before_arr after_arr).2
  match bcastDim nb.d0 na.d0, bcastDim nb.d1 na.d1, bcastDim nb.d2 na.d2 with
  | some nH, some nW, some nB => .ok (pixelPctValue nb na nH nW nB threshold_factor)
  | _, _, _ => .error .broadcastError

/-- Modelled from the spec (section 4.4, steps 2-4), for a same-shape
pixel-major pair: diffMagnitude y x is the mean over bands of the absolute
per-band difference, tau is mean + k * std of diffMagnitude, and the result
is 100 times the fraction of pixels with diffMagnitude strictly above tau. -/
def pixel_change_spec (before_arr after_arr : Arr3) (k : ℝ) : ℝ :=
  let dm : ℕ → ℕ → ℝ := fun y x =>
    (∑ b ∈ Finset.range before_arr.d2, |after_arr.data y x b - before_arr.data y x b|) /
      before_arr.d2
  let tau := gridMean before_arr.d0 before_arr.d1 dm +
    k * gridStd before_arr.d0 before_arr.d1 dm
  (countGT before_arr.d0 before_arr.d1 dm tau : ℝ) /
    (before_arr.d0 * before_arr.d1) * 100

/-- Value of a key in a Python dict that the report may carry: the key can
be missing altogether, present with an empty dict as value, or present with
a populated value. -/
inductive DictField (α : Type) where
  | absent
  | emptyDict
  | val (a : α)
deriving DecidableEq

/-- The populated vegetation_changes sub-dict built at lines 230-235. -/
structure VegChanges where
  loss_percentage : ℝ
  gain_percentage : ℝ
  net_change : ℝ
  mean_ndvi_change : ℝ

/-- The populated urban_changes sub-dict built at lines 249-254. -/
structure UrbanChanges where
  growth_percentage : ℝ
  decline_percentage : ℝ
  net_change : ℝ
  mean_ndbi_change : ℝ

/-- The channel_changes sub-dict built at lines 186-190 of the RGB path. -/
structure ChannelChanges where
  red : ℝ
  green : ℝ
  blue : ℝ

/-- The change report dict.  Keys that a given path never sets are modelled
as absent (none). -/
structure Report where
  analysis_type : String
  vegetation_changes : DictField VegChanges
  urban_changes : DictField UrbanChanges
  total_change_percentage : ℝ
  pixel_change_percentage : Option ℝ
  channel_changes : Option ChannelChanges
  change_type : Option String
  total_pixels : Option ℕ
  significant_changes : Option ℤ

/-- Elementwise subtraction a - b of two same-shape 2-D arrays, with the
dimensions of the first operand (the source only subtracts same-shape index
arrays, lines 220 and 239). -/
def sub2 (a b : Arr2) : Arr2 :=
  ⟨a.d0, a.d1, fun i j => a.data i j - b.data i j⟩

/-- Embeds the vegetation-change statistics of lines 219-235: counts of
pixels of the index difference below -0.1 (loss) and above 0.1 (gain) as
percentages of all pixels, their difference, and the mean difference. -/
def vegStatsOf (before_ndvi after_ndvi : Arr2) : VegChanges :=
  let ndvi_diff := sub2 after_ndvi before_ndvi
  let total_pixels : ℝ := ndvi_diff.d0 * ndvi_diff.d1
  let loss_pct := (countLT ndvi_diff.d0 ndvi_diff.d1 ndvi_diff.data (-0.1) : ℝ) /
    total_pixels * 100
  let gain_pct := (countGT ndvi_diff.d0 ndvi_diff.d1 ndvi_diff.data 0.1 : ℝ) /
    total_pixels * 100
  ⟨loss_pct, gain_pct, gain_pct - loss_pct,
    gridMean ndvi_diff.d0 ndvi_diff.d1 ndvi_diff.data⟩

/-- Embeds the urban-change statistics of lines 238-254: counts of pixels of
the index difference above 0.1 (growth) and below -0.1 (decline) as
percentages, their difference, and the mean difference. -/
def urbanStatsOf (before_ndbi after_ndbi : Arr2) : UrbanChanges :=
  let ndbi_diff := sub2 after_ndbi before_ndbi
  let total_pixels : ℝ := ndbi_diff.d0 * ndbi_diff.d1
  let growth_pct := (countGT ndbi_diff.d0 ndbi_diff.d1 ndbi_diff.data 0.1 : ℝ) /
    total_pixels * 100
  let decline_pct := (countLT ndbi_diff.d0 ndbi_diff.d1 ndbi_diff.data (-0.1) : ℝ) /
    total_pixels * 100
  ⟨growth_pct, decline_pct, growth_pct - decline_pct,
    gridMean ndbi_diff.d0 ndbi_diff.d1 ndbi_diff.data⟩

/-- Embeds analyze_satellite_changes (lines 209-265).  The report starts
with vegetation_changes and urban_changes both present as EMPTY dicts (lines
211-216); each is filled only when both of its index arrays are not None,
and the Python truthiness tests of lines 258 and 260 make the aggregate sum
the contributions of exactly the filled sub-dicts. -/
def analyze_satellite_changes (before_ndvi after_ndvi before_ndbi after_ndbi :
    Option Arr2) : Report :=
  let veg : DictField VegChanges :=
    match before_ndvi, after_ndvi with
    | some b, some a => .val (vegStatsOf b a)
    | _, _ => .emptyDict
  let urb : DictField UrbanChanges :=
    match before_ndbi, after_ndbi with
    | some b, some a => .val (urbanStatsOf b a)
    | _, _ => .emptyDict
  let total :=
    (match veg with
     | .val s => s.loss_percentage + s.gain_percentage
     | _ => 0) +
    (match urb with
     | .val s => s.growth_percentage + s.decline_percentage
     | _ => 0)
  { analysis_type := "satellite_indices", vegetation_changes := veg,
    urban_changes := urb, total_change_percentage := total,
    pixel_change_percentage := none, channel_changes := none,
    change_type := none, total_pixels := none, significant_changes := none }

/-- Band b of a band-major 3-D raster, a 2-D array of shape (d1, d2). -/
def bandOf (a : Arr3) (b : ℕ) : Arr2 :=
  ⟨a.d1, a.d2, fun i j => a.data b i j⟩

/-- Embeds the index-input selection of process_geotiff (lines 126-143),
keyed on the band count of the BEFORE raster: with at least 4 bands the NDVI
pair is computed from bands 3 (NIR) and 2 (Red) of each raster, with at
least 5 bands the NDBI pair is additionally computed from bands 4 (SWIR) and
3 (NIR); with fewer than 4 bands all four are None. -/
def geotiffIndexInputs (before_data after_data : Arr3) :
    Option Arr2 × Option Arr2 × Option Arr2 × Option Arr2 :=
  if 4 ≤ before_data.d0 then
    let b_ndvi := calculate_ndvi (bandOf before_data 3) (bandOf before_data 2)
    let a_ndvi := calculate_ndvi (bandOf after_data 3) (bandOf after_data 2)
    if 5 ≤ before_data.d0 then
      (some b_ndvi, some a_ndvi,
        some (calculate_ndbi (bandOf before_data 4) (bandOf before_data 3)),
        some (calculate_ndbi (bandOf after_data 4) (bandOf after_data 3)))
    else (some b_ndvi, some a_ndvi, none, none)
  else (none, none, none, none)

/-- Embeds process_geotiff (lines 121-158): build the index-based report,
compute the pixel change percentage (a failure there propagates), store it
under pixel_change_percentage, and overwrite total_change_percentage with
the pixel percentage exactly when the latter is strictly larger (lines
154-156; the get of line 155 always finds the key, which
analyze_satellite_changes has set). -/
def process_geotiff (before_data after_data : Arr3) (threshold_factor : ℝ) :
    Except PyErr Report :=
  let inputs := geotiffIndexInputs before_data after_data
  let changes := analyze_satellite_changes inputs.1 inputs.2.1 inputs.2.2.1 inputs.2.2.2
  match calculate_pixel_change_percentage before_data after_data threshold_factor with
  | .error e => .error e
  | .ok pixel_change_pct =>
      let withPixel := { changes with pixel_change_percentage := some pixel_change_pct }
      .ok (if withPixel.total_change_percentage < pixel_change_pct then
            { withPixel with total_change_percentage := pixel_change_pct }
          else withPixel)

open Classical in
/-- Number of positions of a 3-D array whose value strictly exceeds t, as
np.sum(arr > t) over the whole array (line 177). -/
def countGT3 (n0 n1 n2 : ℕ) (f : ℕ → ℕ → ℕ → ℝ) (t : ℝ) : ℕ :=
  (((Finset.range n0 ×ˢ Finset.range n1) ×ˢ Finset.range n2).filter
    (fun p => t < f p.1.1 p.1.2 p.2)).card

/-- Embeds process_regular_image (lines 160-207) applied to the two decoded
RGB arrays, which PIL delivers pixel-major with shape (H, W, 3).  The
headline percentage uses the most sensitive threshold 10, the channel
breakdown uses threshold 20, and the change type compares the channel
percentages. -/
def process_regular_image (before_arr after_arr : Arr3) : Report :=
  let diff : Arr3 := ⟨after_arr.d0, after_arr.d1, after_arr.d2, fun i j k =>
    |after_arr.data i j k - before_arr.data i j k|⟩
  let total_pixels : ℕ := diff.d0 * diff.d1 * diff.d2 / 3
  let significant_changes : ℝ := (countGT3 diff.d0 diff.d1 diff.d2 diff.data 10 : ℝ) / 3
  let change_percentage : ℝ := significant_changes / total_pixels * 100
  let chan := fun c => ((countGT diff.d0 diff.d1 (fun i j => diff.data i j c) 20 : ℝ) /
    total_pixels * 100)
  let channel_changes : ChannelChanges := ⟨chan 0, chan 1, chan 2⟩
  let change_type : String :=
    if channel_changes.red < channel_changes.green ∧
        channel_changes.blue < channel_changes.green then "vegetation"
    else if channel_changes.green < channel_changes.red ∧
        channel_changes.blue < channel_changes.red then "urban"
    else "unknown"
  { analysis_type := "rgb_based", vegetation_changes := .absent,
    urban_changes := .absent, total_change_percentage := change_percentage,
    pixel_change_percentage := some change_percentage,
    channel_changes := some channel_changes, change_type := some change_type,
    total_pixels := some total_pixels,
    significant_changes := some ⌊significant_changes⌋ }

/-- Outcome of rasterio.open followed by read on one path: either the
decoded band-major array, or the RasterioIOError raised on a file that is
not a scientific raster. -/
inductive OpenResult where
  | ok (a : Arr3)
  | ioError

/-- The parameter list of def process_regular_image(before_path, after_path)
at line 160: exactly two parameters, no defaults, no varargs. -/
def process_regular_image_params : List String := ["before_path", "after_path"]

/-- The fallback call of line 119 passes three positional arguments
(before_path, after_path, change_map_path). -/
def fallback_call_positional : ℕ := 3

/-- The fallback call of line 119 also passes the keyword argument
threshold_factor. -/
def fallback_call_keywords : List String := ["threshold_factor"]

/-- Python call semantics for a plain function with no varargs and no
keyword-only parameters: the call binds iff the positional arguments do not
outnumber the parameters and every keyword names a parameter not already
bound positionally; otherwise the call raises TypeError. -/
def pythonCallAccepts (params : List String) (nPos : ℕ) (kws : List String) : Bool :=
  decide (nPos ≤ params.length) &&
    kws.all (fun s => (params.drop nPos).contains s)

/-- Embeds detect_changes (lines 102-119) as a function of the outcomes of
the two rasterio opens, together with the two PIL-decoded RGB arrays that
the fallback path would read from the same two paths.  When both opens
succeed, process_geotiff runs; when either raises RasterioIOError, the
except branch calls process_regular_image with the argument list of
line 119, which binds against the two-parameter definition of line 160
under Python call semantics. -/
def detect_changes (before_open after_open : OpenResult)
    (before_img after_img : Arr3) (threshold_factor : ℝ) : Except PyErr Report :=
  match before_open, after_open with
  | .ok b, .ok a => process_geotiff b a threshold_factor
  | _, _ =>
      if pythonCallAccepts process_regular_image_params fallback_call_positional
          fallback_call_keywords then
        .ok (process_regular_image before_img after_img)
      else
        .error .typeError

/-- Embeds the shape handling of save_change_map (lines 44-55), up to the
2-D difference map it computes: same shape is required, then a band-major
array (first axis at most 5) is averaged over axis 0, then a pixel-major
array (last axis at most 5) over axis 2, and any other 3-D shape raises the
unexpected-image-shape ValueError.  The caller never sees these errors: the
try/except of lines 43-68 swallows them. -/
def save_change_map_diff (before_arr after_arr : Arr3) : Except PyErr Arr2 :=
  if before_arr.d0 = after_arr.d0 ∧ before_arr.d1 = after_arr.d1 ∧
      before_arr.d2 = after_arr.d2 then
    if before_arr.d0 ≤ 5 then
      .ok ⟨before_arr.d1, before_arr.d2, fun i j =>
        (∑ k ∈ Finset.range before_arr.d0,
          |before_arr.data k i j - after_arr.data k i j|) / before_arr.d0⟩
    else if before_arr.d2 ≤ 5 then
      .ok ⟨before_arr.d0, before_arr.d1, fun i j =>
        (∑ k ∈ Finset.range before_arr.d2,
          |before_arr.data i j k - after_arr.data i j k|) / before_arr.d2⟩
    else .error .unsupportedLayout
  else .error .shapeMismatch

/-- A 3-D array all of whose entries are the constant c. -/
def constArr3 (n0 n1 n2 : ℕ) (c : ℝ) : Arr3 := ⟨n0, n1, n2, fun _ _ _ => c⟩

/-- A 1 by 1 band holding the constant c. -/
def constBand (c : ℝ) : Arr2 := ⟨1, 1, fun _ _ => c⟩

/-- Broadcasting an axis against itself keeps its size. -/
theorem bcastDim_self (d : ℕ) : bcastDim d d = some d := by
  unfold bcastDim
  simp

/-- In-range indices are unchanged by the broadcast index map. -/
theorem bIdx_eq (d i : ℕ) (h : i < d) : bIdx d i = i := by
  unfold bIdx
  split
  · omega
  · rfl

/-- The grid mean only reads the field inside the grid. -/
theorem gridMean_congr (nH nW : ℕ) (f g : ℕ → ℕ → ℝ)
    (h : ∀ i < nH, ∀ j < nW, f i j = g i j) :
    gridMean nH nW f = gridMean nH nW g := by
  unfold gridMean
  congr 1
  refine Finset.sum_congr rfl fun i hi => Finset.sum_congr rfl fun j hj => ?_
  exact h i (Finset.mem_range.1 hi) j (Finset.mem_range.1 hj)

/-- The grid standard deviation only reads the field inside the grid. -/
theorem gridStd_congr (nH nW : ℕ) (f g : ℕ → ℕ → ℝ)
    (h : ∀ i < nH, ∀ j < nW, f i j = g i j) :
    gridStd nH nW f = gridStd nH nW g := by
  unfold gridStd
  rw [gridMean_congr nH nW f g h]
  rw [gridMean_congr nH nW (fun i j => (f i j - gridMean nH nW g) ^ 2)
    (fun i j => (g i j - gridMean nH nW g) ^ 2)
    (fun i hi j hj => by dsimp only; rw [h i hi j hj])]

/-- The strict-exceedance count only reads the field inside the grid. -/
theorem countGT_congr (nH nW : ℕ) (f g : ℕ → ℕ → ℝ) (t : ℝ)
    (h : ∀ i < nH, ∀ j < nW, f i j = g i j) :
    countGT nH nW f t = countGT nH nW g t := by
  unfold countGT
  congr 1
  refine Finset.filter_congr fun p hp => ?_
  rw [Finset.mem_product, Finset.mem_range, Finset.mem_range] at hp
  rw [h p.1 hp.1 p.2 hp.2]

/-- Raising the threshold cannot increase the strict-exceedance count. -/
theorem countGT_anti (nH nW : ℕ) (f : ℕ → ℕ → ℝ) (t1 t2 : ℝ) (h : t1 ≤ t2) :
    countGT nH nW f t2 ≤ countGT nH nW f t1 := by
  unfold countGT
  exact Finset.card_le_card
    (Finset.monotone_filter_right _ fun p hp => lt_of_le_of_lt h hp)

/-- A field nowhere strictly above the threshold has exceedance count 0. -/
theorem countGT_of_le (nH nW : ℕ) (f : ℕ → ℕ → ℝ) (t : ℝ)
    (h : ∀ i j, f i j ≤ t) : countGT nH nW f t = 0 := by
  unfold countGT
  rw [Finset.filter_false_of_mem fun p _ => not_lt.2 (h p.1 p.2)]
  exact Finset.card_empty

/-- Mean of a constant field over a nonempty grid. -/
theorem gridMean_const (nH nW : ℕ) (hH : 0 < nH) (hW : 0 < nW) (c : ℝ) :
    gridMean nH nW (fun _ _ => c) = c := by
  unfold gridMean
  rw [Finset.sum_const, Finset.sum_const, Finset.card_range, Finset.card_range]
  rw [smul_smul, nsmul_eq_mul]
  rw [Nat.cast_mul]
  have : ((nH : ℝ) * nW) ≠ 0 := by positivity
  field_simp

/-- Standard deviation of a constant field over a nonempty grid. -/
theorem gridStd_const (nH nW : ℕ) (hH : 0 < nH) (hW : 0 < nW) (c : ℝ) :
    gridStd nH nW (fun _ _ => c) = 0 := by
  unfold gridStd
  rw [gridMean_const nH nW hH hW c]
  have h0 : (fun i j : ℕ => (c - c) ^ 2) = fun _ _ : ℕ => (0 : ℝ) := by
    funext i j
    ring
  rw [h0]
  have : gridMean nH nW (fun _ _ => (0 : ℝ)) = 0 := by
    unfold gridMean
    simp
  rw [this, Real.sqrt_zero]

/-- The per-pixel difference magnitude of two constant-valued arrays is the
constant |y - x|, whatever the layouts and broadcast band count. -/
theorem diffMag_const (s t : Arr3) (x y : ℝ) (hs : ∀ i j k, s.data i j k = x)
    (ht : ∀ i j k, t.data i j k = y) (nB : ℕ) (hB : 0 < nB) :
    diffMag s t nB = fun _ _ => |y - x| := by
  funext i j
  unfold diffMag
  rw [Finset.sum_congr rfl fun m _ => by rw [hs, ht]]
  rw [Finset.sum_const, Finset.card_range, nsmul_eq_mul]
  have : (nB : ℝ) ≠ 0 := by positivity
  field_simp

/-- On constant-valued arrays the pixel-change value is 0: the difference
magnitude is flat, so its standard deviation is 0, the threshold equals the
mean, and the strict comparison excludes every pixel. -/
theorem pixelPctValue_const (nb na : Arr3) (x y : ℝ)
    (hs : ∀ i j k, nb.data i j k = x) (ht : ∀ i j k, na.data i j k = y)
    (nH nW nB : ℕ) (hH : 0 < nH) (hW : 0 < nW) (hB : 0 < nB) (k : ℝ) :
    pixelPctValue nb na nH nW nB k = 0 := by
  simp only [pixelPctValue]
  rw [diffMag_const nb na x y hs ht nB hB]
  rw [gridMean_const nH nW hH hW, gridStd_const nH nW hH hW]
  have ht' : |y - x| + k * 0 = |y - x| := by ring
  rw [ht', countGT_of_le nH nW _ _ fun i j => le_rfl]
  simp

/-- Layout normalization of a same-shape pair yields a same-shape pair. -/
theorem normalizePair_dims (b a : Arr3) (e0 : b.d0 = a.d0) (e1 : b.d1 = a.d1)
    (e2 : b.d2 = a.d2) :
    (normalizePair b a).1.d0 = (normalizePair b a).2.d0 ∧
    (normalizePair b a).1.d1 = (normalizePair b a).2.d1 ∧
    (normalizePair b a).1.d2 = (normalizePair b a).2.d2 := by
  unfold normalizePair
  split <;> simp [transpose120, e0, e1, e2]

/-- When the normalized arrays agree in shape, the broadcast succeeds and
calculate_pixel_change_percentage returns the value of lines 89-96 on that
shape. -/
theorem pixelPct_eval (b a : Arr3)
    (h0 : (normalizePair b a).1.d0 = (normalizePair b a).2.d0)
    (h1 : (normalizePair b a).1.d1 = (normalizePair b a).2.d1)
    (h2 : (normalizePair b a).1.d2 = (normalizePair b a).2.d2) (k : ℝ) :
    calculate_pixel_change_percentage b a k =
      .ok (pixelPctValue (normalizePair b a).1 (normalizePair b a).2
        (normalizePair b a).1.d0 (normalizePair b a).1.d1
        (normalizePair b a).1.d2 k) := by
  simp only [calculate_pixel_change_percentage]
  rw [← h0, ← h1, ← h2, bcastDim_self, bcastDim_self, bcastDim_self]

/-- The percentage of lines 89-96 is a count divided by a size, so it is
never negative. -/
theorem pixelPctValue_nonneg (nb na : Arr3) (nH nW nB : ℕ) (k : ℝ) :
    0 ≤ pixelPctValue nb na nH nW nB k := by
  simp only [pixelPctValue]
  positivity

/-- Whenever calculate_pixel_change_percentage returns a value, that value
is nonnegative. -/
theorem pixelPct_nonneg (b a : Arr3) (k p : ℝ)
    (h : calculate_pixel_change_percentage b a k = .ok p) : 0 ≤ p := by
  simp only [calculate_pixel_change_percentage] at h
  split at h
  · rw [Except.ok.injEq] at h
    rw [← h]
    exact pixelPctValue_nonneg _ _ _ _ _ _
  · exact absurd h (by simp)

/-- On a same-shape pair the broadcast always succeeds:
calculate_pixel_change_percentage returns the lines 89-96 value on the
normalized shape. -/
theorem pixelPct_ok_of_sameShape (b a : Arr3) (e0 : b.d0 = a.d0)
    (e1 : b.d1 = a.d1) (e2 : b.d2 = a.d2) (k : ℝ) :
    calculate_pixel_change_percentage b a k =
      .ok (pixelPctValue (normalizePair b a).1 (normalizePair b a).2
        (normalizePair b a).1.d0 (normalizePair b a).1.d1
        (normalizePair b a).1.d2 k) := by
  obtain ⟨h0, h1, h2⟩ := normalizePair_dims b a e0 e1 e2
  exact pixelPct_eval b a h0 h1 h2 k

/-- On two constant-valued same-shape nonempty arrays the pixel change
percentage is 0, whatever the two constants and the threshold factor. -/
theorem pixelPct_const (n0 n1 n2 : ℕ) (h0 : 0 < n0) (h1 : 0 < n1)
    (h2 : 0 < n2) (x y k : ℝ) :
    calculate_pixel_change_percentage (constArr3 n0 n1 n2 x)
      (constArr3 n0 n1 n2 y) k = .ok 0 := by
  rw [pixelPct_ok_of_sameShape (constArr3 n0 n1 n2 x) (constArr3 n0 n1 n2 y)
    rfl rfl rfl k]
  have hs : ∀ i j m,
      (normalizePair (constArr3 n0 n1 n2 x) (constArr3 n0 n1 n2 y)).1.data i j m = x := by
    unfold normalizePair
    split <;> exact fun _ _ _ => rfl
  have ht : ∀ i j m,
      (normalizePair (constArr3 n0 n1 n2 x) (constArr3 n0 n1 n2 y)).2.data i j m = y := by
    unfold normalizePair
    split <;> exact fun _ _ _ => rfl
  have hd : 0 < (normalizePair (constArr3 n0 n1 n2 x) (constArr3 n0 n1 n2 y)).1.d0 ∧
      0 < (normalizePair (constArr3 n0 n1 n2 x) (constArr3 n0 n1 n2 y)).1.d1 ∧
      0 < (normalizePair (constArr3 n0 n1 n2 x) (constArr3 n0 n1 n2 y)).1.d2 := by
    unfold normalizePair
    split
    · exact ⟨h1, h2, h0⟩
    · exact ⟨h0, h1, h2⟩
  rw [pixelPctValue_const _ _ x y hs ht _ _ _ hd.1 hd.2.1 hd.2.2 k]

/-- On a constant-valued same-shape nonempty pair with fewer than 4 bands,
process_geotiff returns the pixel-only report: both index sub-dicts stay
present as empty dicts, the analysis type stays satellite_indices, and both
percentages are 0. -/
theorem process_geotiff_const (n0 n1 n2 : ℕ) (hlt : n0 < 4) (h0 : 0 < n0)
    (h1 : 0 < n1) (h2 : 0 < n2) (x y k : ℝ) :
    process_geotiff (constArr3 n0 n1 n2 x) (constArr3 n0 n1 n2 y) k =
      .ok ⟨"satellite_indices", .emptyDict, .emptyDict, 0, some 0,
        none, none, none, none⟩ := by
  have hinputs : geotiffIndexInputs (constArr3 n0 n1 n2 x) (constArr3 n0 n1 n2 y) =
      (none, none, none, none) := by
    unfold geotiffIndexInputs
    rw [if_neg (by dsimp only [constArr3]; omega)]
  simp only [process_geotiff, hinputs,
    pixelPct_const n0 n1 n2 h0 h1 h2 x y k]
  simp only [analyze_satellite_changes]
  norm_num

/-- Standard deviations are square roots, hence nonnegative. -/
theorem gridStd_nonneg (nH nW : ℕ) (f : ℕ → ℕ → ℝ) : 0 ≤ gridStd nH nW f := by
  unfold gridStd
  exact Real.sqrt_nonneg _

/-- Inversion: a value returned by calculate_pixel_change_percentage comes
from a successful broadcast and equals the lines 89-96 value on the
broadcast shape. -/
theorem pixelPct_ok_inv (b a : Arr3) (k p : ℝ)
    (h : calculate_pixel_change_percentage b a k = .ok p) :
    ∃ nH nW nB,
      bcastDim (normalizePair b a).1.d0 (normalizePair b a).2.d0 = some nH ∧
      bcastDim (normalizePair b a).1.d1 (normalizePair b a).2.d1 = some nW ∧
      bcastDim (normalizePair b a).1.d2 (normalizePair b a).2.d2 = some nB ∧
      p = pixelPctValue (normalizePair b a).1 (normalizePair b a).2 nH nW nB k := by
  simp only [calculate_pixel_change_percentage] at h
  split at h
  · rename_i nH nW nB h0 h1 h2
    rw [Except.ok.injEq] at h
    exact ⟨nH, nW, nB, h0, h1, h2, h.symm⟩
  · exact absurd h (by simp)

/-- The lines 89-96 value is antitone in the threshold factor: a larger
factor gives a larger threshold, which strictly exceeds no more pixels. -/
theorem pixelPctValue_anti (nb na : Arr3) (nH nW nB : ℕ) (k1 k2 : ℝ)
    (hk : k1 ≤ k2) :
    pixelPctValue nb na nH nW nB k2 ≤ pixelPctValue nb na nH nW nB k1 := by
  simp only [pixelPctValue]
  have hstd : 0 ≤ gridStd nH nW (diffMag nb na nB) := gridStd_nonneg nH nW _
  have hthr : gridMean nH nW (diffMag nb na nB) +
      k1 * gridStd nH nW (diffMag nb na nB) ≤
      gridMean nH nW (diffMag nb na nB) +
      k2 * gridStd nH nW (diffMag nb na nB) :=
    add_le_add_left (mul_le_mul_of_nonneg_right hk hstd) _
  have hcnt := countGT_anti nH nW (diffMag nb na nB) _ _ hthr
  have hc : ((countGT nH nW (diffMag nb na nB)
      (gridMean nH nW (diffMag nb na nB) +
        k2 * gridStd nH nW (diffMag nb na nB)) : ℕ) : ℝ) ≤
      ((countGT nH nW (diffMag nb na nB)
      (gridMean nH nW (diffMag nb na nB) +
        k1 * gridStd nH nW (diffMag nb na nB)) : ℕ) : ℝ) := Nat.cast_le.2 hcnt
  rw [div_eq_mul_inv, div_eq_mul_inv]
  have hinv : (0 : ℝ) ≤ ((nH : ℝ) * nW)⁻¹ := by positivity
  exact mul_le_mul_of_nonneg_right (mul_le_mul_of_nonneg_right hc hinv) (by norm_num)

/-- On a same-shape normalized pair the lines 89-96 value coincides with the
spec formula of section 4.4: the broadcast index maps are the identity in
range, so the difference magnitude, the threshold and the count agree. -/
theorem pixelPctValue_eq_spec (nb na : Arr3) (k : ℝ) (e0 : nb.d0 = na.d0)
    (e1 : nb.d1 = na.d1) (e2 : nb.d2 = na.d2) :
    pixelPctValue nb na nb.d0 nb.d1 nb.d2 k = pixel_change_spec nb na k := by
  simp only [pixelPctValue, pixel_change_spec]
  have hdm : ∀ i < nb.d0, ∀ j < nb.d1,
      diffMag nb na nb.d2 i j =
        (∑ m ∈ Finset.range nb.d2, |na.data i j m - nb.data i j m|) / nb.d2 := by
    intro i hi j hj
    unfold diffMag
    congr 1
    refine Finset.sum_congr rfl fun m hm => ?_
    have hm' := Finset.mem_range.1 hm
    rw [bIdx_eq na.d0 i (by omega), bIdx_eq na.d1 j (by omega),
      bIdx_eq na.d2 m (by omega), bIdx_eq nb.d0 i hi, bIdx_eq nb.d1 j hj,
      bIdx_eq nb.d2 m hm']
  rw [gridMean_congr nb.d0 nb.d1 _ _ hdm, gridStd_congr nb.d0 nb.d1 _ _ hdm,
    countGT_congr nb.d0 nb.d1 _ _ _ hdm]

/-- Claim C4, counterexample: at a band pair whose denominator is the
positive value eps / 2 (nonzero but below the epsilon), calculate_ndvi
divides by the raw denominator and returns 1, while the spec formula with
the max-floored denominator returns 1 / 2, so the two disagree. -/
theorem C4_counterexample :
    (calculate_ndvi (constBand (eps / 2)) (constBand 0)).data 0 0 ≠
      (ndvi_spec (constBand (eps / 2)) (constBand 0)).data 0 0 := by
  simp only [calculate_ndvi, ndvi_spec, constBand, pyDenom]
  rw [if_neg (by norm_num [eps]), max_eq_right (by norm_num [eps])]
  norm_num [eps]

/-- Claim C4, amended: the code replaces the denominator by 1e-10 only when
it is exactly zero, so calculate_ndvi and calculate_ndbi agree with the
max-floored spec formulas exactly at entries whose denominator is zero or at
least the epsilon (in particular on all nonnegative integer-valued bands). -/
theorem C4_theorem : ∀ (x y : Arr2) (i j : ℕ),
    (x.data i j + y.data i j = 0 ∨ eps ≤ x.data i j + y.data i j) →
    (calculate_ndvi x y).data i j = (ndvi_spec x y).data i j ∧
    (calculate_ndbi x y).data i j = (ndbi_spec x y).data i j := by
  intro x y i j h
  simp only [calculate_ndvi, ndvi_spec, calculate_ndbi, ndbi_spec, pyDenom]
  rcases h with h | h
  · rw [h, if_pos rfl, max_eq_right (by norm_num [eps])]
    exact ⟨rfl, rfl⟩
  · have hpos : (0 : ℝ) < eps := by norm_num [eps]
    rw [if_neg (ne_of_gt (lt_of_lt_of_le hpos h)), max_eq_left h]
    exact ⟨rfl, rfl⟩

/-- Claim C4, witness: on the band pair (1, 0) the hypothesis holds and the
code and spec index values coincide. -/
theorem C4_theorem_witness :
    (calculate_ndvi (constBand 1) (constBand 0)).data 0 0 =
      (ndvi_spec (constBand 1) (constBand 0)).data 0 0 ∧
    (calculate_ndbi (constBand 1) (constBand 0)).data 0 0 =
      (ndbi_spec (constBand 1) (constBand 0)).data 0 0 :=
  C4_theorem (constBand 1) (constBand 0) 0 0 (Or.inr (by norm_num [constBand, eps]))

/-- Claim C8: for every band pair and every entry the guarded denominator is
nonzero, the index value is an honest real division by that nonzero
denominator (so it is a finite real number, never NaN or infinite, and never
a division by true zero), and on the all-zeros band pair both indices
evaluate to 0 without raising. -/
theorem C8_theorem : ∀ (x y : Arr2) (i j : ℕ),
    pyDenom (x.data i j + y.data i j) ≠ 0 ∧
    (calculate_ndvi x y).data i j * pyDenom (x.data i j + y.data i j) =
      x.data i j - y.data i j ∧
    (calculate_ndbi x y).data i j * pyDenom (x.data i j + y.data i j) =
      x.data i j - y.data i j ∧
    (calculate_ndvi (constBand 0) (constBand 0)).data i j = 0 ∧
    (calculate_ndbi (constBand 0) (constBand 0)).data i j = 0 := by
  intro x y i j
  have hne : pyDenom (x.data i j + y.data i j) ≠ 0 := by
    unfold pyDenom
    split
    · norm_num [eps]
    · assumption
  refine ⟨hne, ?_, ?_, ?_, ?_⟩
  · simp only [calculate_ndvi]
    exact div_mul_cancel₀ _ hne
  · simp only [calculate_ndbi]
    exact div_mul_cancel₀ _ hne
  · simp only [calculate_ndvi, constBand, pyDenom]
    norm_num
  · simp only [calculate_ndbi, constBand, pyDenom]
    norm_num

/-- Claim C9, counterexample: on the 50 by 50 pixel-major pair that steps
uniformly from 0 to 255 the reported pixel-change percentage is not 100:
the uniform step has zero standard deviation, the threshold equals the mean
255, and the strict comparison flags no pixel. -/
theorem C9_counterexample :
    calculate_pixel_change_percentage (constArr3 50 50 3 0)
      (constArr3 50 50 3 255) 1 ≠ .ok 100 := by
  rw [pixelPct_const 50 50 3 (by norm_num) (by norm_num) (by norm_num) 0 255 1]
  intro h
  rw [Except.ok.injEq] at h
  norm_num at h

/-- Claim C9, amended: on the all-zero to all-255 uniform step the pixel
change percentage is 0 percent, because the flat difference magnitude makes
the threshold equal the common value and the strict comparison fails
everywhere. -/
theorem C9_theorem :
    calculate_pixel_change_percentage (constArr3 50 50 3 0)
      (constArr3 50 50 3 255) 1 = .ok 0 :=
  pixelPct_const 50 50 3 (by norm_num) (by norm_num) (by norm_num) 0 255 1

/-- Claim C10: the layout classification of lines 81-83 transposes the pair
exactly when the first axis of the before array is at most 5, whatever the
actual layout, and calculate_pixel_change_percentage never raises the
unexpected-image-shape error (its only failure is the numpy broadcast
error). -/
theorem C10_theorem : ∀ (b a : Arr3) (k : ℝ),
    (b.d0 ≤ 5 → normalizePair b a = (transpose120 b, transpose120 a)) ∧
    (5 < b.d0 → normalizePair b a = (b, a)) ∧
    calculate_pixel_change_percentage b a k ≠ .error .unsupportedLayout := by
  intro b a k
  refine ⟨fun h => ?_, fun h => ?_, ?_⟩
  · unfold normalizePair
    rw [if_pos h]
  · unfold normalizePair
    rw [if_neg (by omega)]
  · simp only [calculate_pixel_change_percentage]
    split
    · simp
    · simp

/-- Claim C10, witness: a 3-row array is transposed even though a
pixel-major image with 3 rows fits the first branch, and a 7-band array is
left as is. -/
theorem C10_theorem_witness :
    normalizePair (constArr3 3 8 9 0) (constArr3 3 8 9 1) =
      (transpose120 (constArr3 3 8 9 0), transpose120 (constArr3 3 8 9 1)) ∧
    normalizePair (constArr3 7 8 9 0) (constArr3 7 8 9 1) =
      (constArr3 7 8 9 0, constArr3 7 8 9 1) :=
  ⟨(C10_theorem (constArr3 3 8 9 0) (constArr3 3 8 9 1) 1).1 (by norm_num [constArr3]),
   (C10_theorem (constArr3 7 8 9 0) (constArr3 7 8 9 1) 1).2.1 (by norm_num [constArr3])⟩

/-- Claim C6, counterexample: a pair whose band counts differ (1 band
against 4 bands, same 7 by 3 grid) does not fail with any shape error: the
normalized shapes broadcast, and the call silently returns a numeric
percentage. -/
theorem C6_counterexample :
    calculate_pixel_change_percentage (constArr3 1 7 3 0)
      (constArr3 4 7 3 0) 1 = .ok 0 := by
  have hb : calculate_pixel_change_percentage (constArr3 1 7 3 0)
      (constArr3 4 7 3 0) 1 =
      .ok (pixelPctValue (constArr3 7 3 1 0) (constArr3 7 3 4 0) 7 3 4 1) := rfl
  rw [hb, pixelPctValue_const (constArr3 7 3 1 0) (constArr3 7 3 4 0) 0 0
    (fun _ _ _ => rfl) (fun _ _ _ => rfl) 7 3 4 (by norm_num) (by norm_num)
    (by norm_num) 1]

/-- Claim C6, amended: there is no explicit shape check; for every
same-shape pair (empty or not) the broadcast succeeds and a numeric result
is returned, while mismatched shapes surface only through numpy
broadcasting, which silently computes whenever the shapes are
broadcast-compatible. -/
theorem C6_theorem : ∀ (b a : Arr3) (k : ℝ),
    b.d0 = a.d0 → b.d1 = a.d1 → b.d2 = a.d2 →
    ∃ p, calculate_pixel_change_percentage b a k = .ok p := by
  intro b a k e0 e1 e2
  exact ⟨_, pixelPct_ok_of_sameShape b a e0 e1 e2 k⟩

/-- Claim C6, witness: a same-shape 2 by 3 by 4 pair returns a value. -/
theorem C6_theorem_witness :
    ∃ p, calculate_pixel_change_percentage (constArr3 2 3 4 1)
      (constArr3 2 3 4 6) 1 = .ok p :=
  C6_theorem (constArr3 2 3 4 1) (constArr3 2 3 4 6) 1 rfl rfl rfl

/-- Claim C7: for a fixed image pair the returned pixel-change percentage is
monotonically non-increasing in the threshold factor. -/
theorem C7_theorem : ∀ (b a : Arr3) (k1 k2 p1 p2 : ℝ), k1 ≤ k2 →
    calculate_pixel_change_percentage b a k1 = .ok p1 →
    calculate_pixel_change_percentage b a k2 = .ok p2 → p2 ≤ p1 := by
  intro b a k1 k2 p1 p2 hk h1 h2
  obtain ⟨nH1, nW1, nB1, e10, e11, e12, hv1⟩ := pixelPct_ok_inv b a k1 p1 h1
  obtain ⟨nH2, nW2, nB2, e20, e21, e22, hv2⟩ := pixelPct_ok_inv b a k2 p2 h2
  rw [e10] at e20
  rw [e11] at e21
  rw [e12] at e22
  rw [Option.some.injEq] at e20 e21 e22
  rw [hv1, hv2, ← e20, ← e21, ← e22]
  exact pixelPctValue_anti (normalizePair b a).1 (normalizePair b a).2
    nH1 nW1 nB1 k1 k2 hk

/-- Claim C7, witness: at a fixed constant pair with factors 1 and 2 both
calls return 0 and the inequality holds. -/
theorem C7_theorem_witness :
    calculate_pixel_change_percentage (constArr3 10 10 3 0)
      (constArr3 10 10 3 9) 1 = .ok 0 ∧
    calculate_pixel_change_percentage (constArr3 10 10 3 0)
      (constArr3 10 10 3 9) 2 = .ok 0 ∧
    (0 : ℝ) ≤ 0 :=
  ⟨pixelPct_const 10 10 3 (by norm_num) (by norm_num) (by norm_num) 0 9 1,
   pixelPct_const 10 10 3 (by norm_num) (by norm_num) (by norm_num) 0 9 2,
   C7_theorem (constArr3 10 10 3 0) (constArr3 10 10 3 9) 1 2 0 0 (by norm_num)
     (pixelPct_const 10 10 3 (by norm_num) (by norm_num) (by norm_num) 0 9 1)
     (pixelPct_const 10 10 3 (by norm_num) (by norm_num) (by norm_num) 0 9 2)⟩

/-- Claim C3: on every same-shape pair calculate_pixel_change_percentage
returns exactly the spec formula of section 4.4 evaluated on the pair after
normalization to pixel-major layout: 100 times the fraction of pixels whose
band-mean absolute difference strictly exceeds mean + k times std. -/
theorem C3_theorem : ∀ (b a : Arr3) (k : ℝ),
    b.d0 = a.d0 → b.d1 = a.d1 → b.d2 = a.d2 →
    calculate_pixel_change_percentage b a k =
      .ok (pixel_change_spec (normalizePair b a).1 (normalizePair b a).2 k) := by
  intro b a k e0 e1 e2
  obtain ⟨h0, h1, h2⟩ := normalizePair_dims b a e0 e1 e2
  rw [pixelPct_eval b a h0 h1 h2 k]
  rw [pixelPctValue_eq_spec (normalizePair b a).1 (normalizePair b a).2 k h0 h1 h2]

/-- Claim C3, witness: on a concrete same-shape 2 by 3 by 4 pair the call
returns the spec formula value on the normalized pair. -/
theorem C3_theorem_witness :
    calculate_pixel_change_percentage (constArr3 2 3 4 0) (constArr3 2 3 4 8) 1 =
      .ok (pixel_change_spec
        (normalizePair (constArr3 2 3 4 0) (constArr3 2 3 4 8)).1
        (normalizePair (constArr3 2 3 4 0) (constArr3 2 3 4 8)).2 1) :=
  C3_theorem (constArr3 2 3 4 0) (constArr3 2 3 4 8) 1 rfl rfl rfl

/-- Claim C5, counterexample: on a 3-band pair the report keeps the
vegetation_changes and urban_changes keys present as empty dicts (they are
not omitted), keeps analysis_type satellite_indices, and no RGB fallback
runs inside process_geotiff. -/
theorem C5_counterexample :
    process_geotiff (constArr3 3 6 6 0) (constArr3 3 6 6 5) 1 =
      .ok ⟨"satellite_indices", .emptyDict, .emptyDict, 0, some 0,
        none, none, none, none⟩ ∧
    (DictField.emptyDict : DictField VegChanges) ≠ .absent ∧
    (DictField.emptyDict : DictField UrbanChanges) ≠ .absent ∧
    "satellite_indices" ≠ "rgb_based" :=
  ⟨process_geotiff_const 3 6 6 (by norm_num) (by norm_num) (by norm_num)
      (by norm_num) 0 5 1,
   fun h => DictField.noConfusion h,
   fun h => DictField.noConfusion h,
   by decide⟩

/-- Claim C5, amended: with fewer than 4 bands no index statistics are
computed, the two index fields stay present as EMPTY dicts, the analysis
type stays satellite_indices (process_geotiff never switches to the RGB
path), and the report is pixel-change-only: its headline equals the pixel
change percentage. -/
theorem C5_theorem : ∀ (b a : Arr3) (k : ℝ), b.d0 < 4 →
    b.d0 = a.d0 → b.d1 = a.d1 → b.d2 = a.d2 →
    ∃ p, calculate_pixel_change_percentage b a k = .ok p ∧
      process_geotiff b a k =
        .ok ⟨"satellite_indices", .emptyDict, .emptyDict, p, some p,
          none, none, none, none⟩ := by
  intro b a k hlt e0 e1 e2
  refine ⟨_, pixelPct_ok_of_sameShape b a e0 e1 e2 k, ?_⟩
  have hp0 : 0 ≤ pixelPctValue (normalizePair b a).1 (normalizePair b a).2
      (normalizePair b a).1.d0 (normalizePair b a).1.d1
      (normalizePair b a).1.d2 k := pixelPctValue_nonneg _ _ _ _ _ _
  have hinputs : geotiffIndexInputs b a = (none, none, none, none) := by
    unfold geotiffIndexInputs
    rw [if_neg (by omega)]
  simp only [process_geotiff, hinputs, pixelPct_ok_of_sameShape b a e0 e1 e2 k]
  simp only [analyze_satellite_changes]
  norm_num
  intro hle
  linarith

/-- Claim C5, witness: a 1-band same-shape pair produces the pixel-only
report with empty index fields. -/
theorem C5_theorem_witness :
    ∃ p, calculate_pixel_change_percentage (constArr3 1 2 2 0)
      (constArr3 1 2 2 3) 1 = .ok p ∧
      process_geotiff (constArr3 1 2 2 0) (constArr3 1 2 2 3) 1 =
        .ok ⟨"satellite_indices", .emptyDict, .emptyDict, p, some p,
          none, none, none, none⟩ :=
  C5_theorem (constArr3 1 2 2 0) (constArr3 1 2 2 3) 1 (by norm_num [constArr3])
    rfl rfl rfl

/-- Reconciliation step of lines 154-156, headline field: overwriting the
total with the pixel percentage exactly when the latter is strictly larger
computes the maximum of the two. -/
theorem reconcileTotal_eq_max (c : Report) (p : ℝ) :
    ((if ({ c with pixel_change_percentage := some p }).total_change_percentage < p
      then { { c with pixel_change_percentage := some p } with
        total_change_percentage := p }
      else { c with pixel_change_percentage := some p }) :
        Report).total_change_percentage =
      max c.total_change_percentage p := by
  split
  · rename_i hlt
    exact (max_eq_right (le_of_lt hlt)).symm
  · rename_i hge
    exact (max_eq_left (not_lt.1 hge)).symm

/-- Reconciliation step of lines 154-156, pixel field: both branches keep
the stored pixel percentage. -/
theorem reconcilePixel_eq (c : Report) (p : ℝ) :
    ((if ({ c with pixel_change_percentage := some p }).total_change_percentage < p
      then { { c with pixel_change_percentage := some p } with
        total_change_percentage := p }
      else { c with pixel_change_percentage := some p }) :
        Report).pixel_change_percentage = some p := by
  split <;> rfl

/-- Claim C1: every report returned by process_geotiff stores a pixel
change percentage, its headline total_change_percentage equals the maximum
of the index-path aggregate and that pixel percentage, and in particular
the headline is at least the pixel percentage. -/
theorem C1_theorem : ∀ (b a : Arr3) (k : ℝ) (r : Report),
    process_geotiff b a k = .ok r →
    ∃ p, r.pixel_change_percentage = some p ∧
      r.total_change_percentage =
        max (analyze_satellite_changes (geotiffIndexInputs b a).1
          (geotiffIndexInputs b a).2.1 (geotiffIndexInputs b a).2.2.1
          (geotiffIndexInputs b a).2.2.2).total_change_percentage p ∧
      p ≤ r.total_change_percentage := by
  intro b a k r h
  simp only [process_geotiff] at h
  split at h
  · exact absurd h (by simp)
  · rename_i p heq
    rw [Except.ok.injEq] at h
    subst h
    set A := analyze_satellite_changes (geotiffIndexInputs b a).1
      (geotiffIndexInputs b a).2.1 (geotiffIndexInputs b a).2.2.1
      (geotiffIndexInputs b a).2.2.2 with hA
    refine ⟨p, reconcilePixel_eq A p, reconcileTotal_eq_max A p, ?_⟩
    exact le_trans (le_max_right A.total_change_percentage p)
      (le_of_eq (reconcileTotal_eq_max A p).symm)

/-- Claim C1, witness: on a concrete 2-band constant pair the returned
report stores pixel percentage 0 and headline max 0 0 = 0. -/
theorem C1_theorem_witness :
    ∃ p, (Report.mk "satellite_indices" .emptyDict .emptyDict 0 (some 0)
      none none none none).pixel_change_percentage = some p ∧
      (Report.mk "satellite_indices" .emptyDict .emptyDict 0 (some 0)
        none none none none).total_change_percentage =
        max (analyze_satellite_changes
          (geotiffIndexInputs (constArr3 2 5 5 1) (constArr3 2 5 5 4)).1
          (geotiffIndexInputs (constArr3 2 5 5 1) (constArr3 2 5 5 4)).2.1
          (geotiffIndexInputs (constArr3 2 5 5 1) (constArr3 2 5 5 4)).2.2.1
          (geotiffIndexInputs (constArr3 2 5 5 1)
            (constArr3 2 5 5 4)).2.2.2).total_change_percentage p ∧
      p ≤ (Report.mk "satellite_indices" .emptyDict .emptyDict 0 (some 0)
        none none none none).total_change_percentage :=
  C1_theorem (constArr3 2 5 5 1) (constArr3 2 5 5 4) 1 _
    (process_geotiff_const 2 5 5 (by norm_num) (by norm_num) (by norm_num)
      (by norm_num) 1 4 1)

/-- Claim C2: whenever either rasterio open raises RasterioIOError, the
fallback of line 119 calls process_regular_image with three positional
arguments and a threshold_factor keyword, but the definition of line 160
takes exactly two parameters, so detect_changes raises TypeError instead of
returning an RGB-based report. -/
theorem C2_theorem : ∀ (before_open after_open : OpenResult)
    (before_img after_img : Arr3) (k : ℝ),
    (before_open = .ioError ∨ after_open = .ioError) →
    detect_changes before_open after_open before_img after_img k =
      .error .typeError := by
  intro bo ao bi ai k h
  cases bo <;> cases ao
  · rcases h with h | h <;> exact absurd h (by simp)
  · rfl
  · rfl
  · rfl

/-- Claim C2, witness: with both opens failing, detect_changes raises
TypeError. -/
theorem C2_theorem_witness :
    detect_changes .ioError .ioError (constArr3 1 1 3 0) (constArr3 1 1 3 7) 1 =
      .error .typeError :=
  C2_theorem .ioError .ioError (constArr3 1 1 3 0) (constArr3 1 1 3 7) 1
    (Or.inl rfl)

end

